import Mathlib

/-!
Shallow embedding of the `products` app of django-admin-example.

The app declares three persisted models (`src/products/models.py`) and an
admin surface (`src/products/admin.py`):

  - `Product` with fields `title` (CharField), `price` (IntegerField),
    `image` (ImageField);
  - `Order` with fields `user` (ForeignKey to the user model,
    `on_delete=CASCADE`) and `created` (DateTimeField with
    `auto_now_add=True`), plus a read-only property
    `total_amount = sum([item.total_amount for item in self.orderitem_set.all()])`;
  - `OrderItem` with fields `order` (ForeignKey to `Order`,
    `on_delete=CASCADE`), `product` (ForeignKey to `Product`,
    `on_delete=CASCADE`) and `count` (PositiveIntegerField), plus a
    read-only property `total_amount = self.product.price * self.count`;
  - `OrderDetailView(PermissionRequiredMixin, DetailView)` with
    `permission_required = "products.view_order"`.

We model the database as explicit lists of rows; foreign keys are stored
as row ids, matching the relational `user_id` / `order_id` / `product_id`
columns Django generates.  Cascade deletion (`on_delete=models.CASCADE`)
is modelled by filtering out the dependent rows, and the write paths of
the admin surface are modelled as explicit state-passing functions.
-/

namespace DjangoAdminExample

/-- A row of the `products_product` table: `title`, `price`
(`IntegerField`, so a possibly negative machine integer) and `image`
(stored as a file-name reference). -/
structure Product where
  id : Nat
  title : String
  price : Int
  image : String
deriving DecidableEq

/-- A row of the `products_order` table: `user` is the id of the owning
user (`ForeignKey(User, on_delete=CASCADE)`), `created` the timestamp
assigned by `auto_now_add=True` (modelled as a number). -/
structure Order where
  id : Nat
  user : Nat
  created : Nat
deriving DecidableEq

/-- A row of the `products_orderitem` table: `order` and `product` are
the ids of the referenced rows (both `ForeignKey` with
`on_delete=CASCADE`), `count` a `PositiveIntegerField` value. -/
structure OrderItem where
  id : Nat
  order : Nat
  product : Nat
  count : Nat
deriving DecidableEq

/-- The database state: the user table (only ids matter here) and the
three tables of the `products` app. -/
structure DB where
  users : List Nat
  products : List Product
  orders : List Order
  orderItems : List OrderItem
deriving DecidableEq

/-- Resolving the foreign key `OrderItem.product`: the product row with
the given primary key, if any. -/
def DB.findProduct (db : DB) (pid : Nat) : Option Product :=
  db.products.find? (fun p => p.id == pid)

/-- Resolving a primary-key lookup on the order table (used both by
foreign keys and by `DetailView.get_object`). -/
def DB.findOrder (db : DB) (oid : Nat) : Option Order :=
  db.orders.find? (fun o => o.id == oid)

/-- `OrderItem.total_amount`, from `models.py`:
`return self.product.price * self.count`.  Resolving `self.product`
needs the referenced row; on a dangling foreign key the attribute
access would raise in the source, which we model as `none`. -/
def OrderItem.total_amount (db : DB) (i : OrderItem) : Option Int :=
  (db.findProduct i.product).map (fun p => p.price * (i.count : Int))

/-- `self.orderitem_set.all()`: the order items whose `order_id` column
equals this order's primary key. -/
def DB.orderitem_set (db : DB) (o : Order) : List OrderItem :=
  db.orderItems.filter (fun i => i.order == o.id)

/-- Python's built-in `sum` over a list of integer subtotals, each of
which may have failed to compute (a raised exception propagates, hence
`none` absorbs). `sum [] = 0`. -/
def sumAmounts : List (Option Int) → Option Int
  | [] => some 0
  | none :: _ => none
  | some x :: xs => (sumAmounts xs).map (fun s => x + s)

/-- `Order.total_amount`, from `models.py`:
`return sum([item.total_amount for item in self.orderitem_set.all()])`. -/
def Order.total_amount (db : DB) (o : Order) : Option Int :=
  sumAmounts ((db.orderitem_set o).map (fun i => i.total_amount db))

/-- Editing a product's `price` through the admin change form: the row
keeps its identity, only the `price` column changes. -/
def DB.updateProductPrice (db : DB) (pid : Nat) (newPrice : Int) : DB :=
  { db with
    products := db.products.map
      (fun p => if p.id == pid then { p with price := newPrice } else p) }

/-- Deleting a product row.  `OrderItem.product` is declared with
`on_delete=models.CASCADE`, so every order item referencing the product
is deleted with it; orders and users are untouched. -/
def DB.deleteProduct (db : DB) (pid : Nat) : DB :=
  { db with
    products := db.products.filter (fun p => p.id != pid),
    orderItems := db.orderItems.filter (fun i => i.product != pid) }

/-- Deleting an order row.  `OrderItem.order` is declared with
`on_delete=models.CASCADE`, so every order item of the order is deleted
with it; products and users are untouched. -/
def DB.deleteOrder (db : DB) (oid : Nat) : DB :=
  { db with
    orders := db.orders.filter (fun o => o.id != oid),
    orderItems := db.orderItems.filter (fun i => i.order != oid) }

/-- Deleting a user row.  `Order.user` is declared with
`on_delete=models.CASCADE`, so every order owned by the user is deleted,
and the cascade continues through `OrderItem.order` to the order items
of those orders; products are untouched. -/
def DB.deleteUser (db : DB) (uid : Nat) : DB :=
  { db with
    users := db.users.filter (fun u => u != uid),
    orders := db.orders.filter (fun o => o.user != uid),
    orderItems := db.orderItems.filter
      (fun i => !(db.orders.any (fun o => o.id == i.order && o.user == uid))) }

/-- Upper bound enforced by Django's `PositiveIntegerField` validators:
values from 0 to 2147483647 are accepted. -/
def positiveIntegerFieldMax : Nat := 2147483647

/-- Creating an `OrderItem` row through the admin (the inline editor on
the order form, or the standalone `OrderItemAdmin`).  Write-time
validation requires the two foreign keys to resolve (`ForeignKey` fields
are required) and `count` to pass `PositiveIntegerField` validation,
which accepts any value from 0 to 2147483647 (`count` is a `Nat`, so
only the upper bound is checked). -/
def DB.createOrderItem (db : DB) (iid oid pid cnt : Nat) : Option DB :=
  if (db.findOrder oid).isSome ∧ (db.findProduct pid).isSome
      ∧ cnt ≤ positiveIntegerFieldMax then
    some { db with orderItems := db.orderItems ++ [⟨iid, oid, pid, cnt⟩] }
  else
    none

/-- Creating an `Order` row: the `user` foreign key must resolve, and
`created` is assigned by `auto_now_add=True` from the clock at save
time (`now`), never from user input. -/
def DB.createOrder (db : DB) (oid uid now : Nat) : Option DB :=
  if db.users.contains uid then
    some { db with orders := db.orders ++ [⟨oid, uid, now⟩] }
  else
    none

/-- Updating an order through the admin change form.  `created` has
`auto_now_add=True`, hence `editable=False`: the form can change only
the `user` field, and `DateTimeField.pre_save` leaves the stored value
alone on a non-insert save. -/
def DB.updateOrderUser (db : DB) (oid uid : Nat) : DB :=
  { db with
    orders := db.orders.map
      (fun o => if o.id == oid then { o with user := uid } else o) }

/-- Editing a line item's `count` through the inline editor on the order
form: only the `orderitem` table is touched. -/
def DB.updateOrderItemCount (db : DB) (iid cnt : Nat) : DB :=
  { db with
    orderItems := db.orderItems.map
      (fun i => if i.id == iid then { i with count := cnt } else i) }

/-- The permission string guarding the detail route:
`permission_required = "products.view_order"`. -/
def viewOrderPermission : String := "products.view_order"

/-- Outcome of a request to the order detail route.  `forbidden` is the
authorization failure produced by `PermissionRequiredMixin` (it carries
no order data), `notFound` the 404 from `DetailView.get_object`, and
`ok` the rendered page exposing the order's user, creation timestamp,
line items and total. -/
inductive DetailResponse where
  | forbidden : DetailResponse
  | notFound : DetailResponse
  | ok (user : Nat) (created : Nat) (items : List OrderItem)
      (total : Option Int) : DetailResponse
deriving DecidableEq

/-- `OrderDetailView` from `admin.py`: `PermissionRequiredMixin.dispatch`
runs before any object retrieval or rendering, so a caller whose
permission set lacks `products.view_order` is rejected first; otherwise
`DetailView` fetches the order by primary key (404 when absent) and
renders it. -/
def orderDetailView (db : DB) (perms : List String) (pk : Nat) : DetailResponse :=
  if viewOrderPermission ∈ perms then
    match db.findOrder pk with
    | some o => .ok o.user o.created (db.orderitem_set o) (o.total_amount db)
    | none => .notFound
  else
    .forbidden

/-! Concrete database states used in scenario parts and witnesses. -/

/-- Scenario state for the two-line-item total: products priced 100 and
20, one order with line items of counts 2 and 5. -/
def dbTwoItems : DB :=
  { users := [7],
    products := [⟨1, "A", 100, "a.png"⟩, ⟨2, "B", 20, "b.png"⟩],
    orders := [⟨1, 7, 0⟩],
    orderItems := [⟨1, 1, 1, 2⟩, ⟨2, 1, 2, 5⟩] }

/-- Scenario state for the live-recompute check: one product priced 500,
one order with a single line item of count 3. -/
def dbWidget : DB :=
  { users := [7],
    products := [⟨1, "Widget", 500, "w.png"⟩],
    orders := [⟨1, 7, 0⟩],
    orderItems := [⟨1, 1, 1, 3⟩] }

/-- A state with one product, one user and one empty order, used to
exercise the write paths. -/
def dbBase : DB :=
  { users := [7],
    products := [⟨1, "A", 100, "a.png"⟩],
    orders := [⟨1, 7, 5⟩],
    orderItems := [] }

/-- The state `dbBase.createOrderItem 2 1 1 0` produces: the item with
`count = 0` is stored. -/
def dbBaseZero : DB :=
  { dbBase with orderItems := [⟨2, 1, 1, 0⟩] }

/-- The state `dbBase.createOrder 2 7 9` produces: a second order,
created at time 9. -/
def dbBaseTwoOrders : DB :=
  { dbBase with orders := [⟨1, 7, 5⟩, ⟨2, 7, 9⟩] }

/-! Helper lemmas about lookups after updates and deletions. -/

/-- Two filters over the same list commute. -/
theorem filter_comm_bool {α : Type} (p q : α → Bool) (l : List α) :
    (l.filter p).filter q = (l.filter q).filter p := by
  induction l with
  | nil => rfl
  | cons a t ih =>
    by_cases hp : p a <;> by_cases hq : q a <;>
      simp [List.filter_cons, hp, hq, ih]

/-- Rewriting one product's price in the product table rewrites exactly
the looked-up row. -/
theorem find_price_update (l : List Product) (pid : Nat) (c : Int) :
    (l.map (fun p => if p.id == pid then { p with price := c } else p)).find?
        (fun p => p.id == pid)
      = (l.find? (fun p => p.id == pid)).map (fun p => { p with price := c }) := by
  induction l with
  | nil => rfl
  | cons a t ih =>
    by_cases h : a.id = pid
    · have hb : (a.id == pid) = true := by simp [h]
      simp [List.find?_cons, hb, -List.find?_map, -beq_iff_eq]
    · have hb : (a.id == pid) = false := by simp [h]
      simp [List.find?_cons, hb, ih, -List.find?_map, -beq_iff_eq]

/-- Removing the rows of one product id from the product table leaves
lookups of every other id alone. -/
theorem find_filter_ne (l : List Product) (pid q : Nat) (h : q ≠ pid) :
    (l.filter (fun p => p.id != pid)).find? (fun p => p.id == q)
      = l.find? (fun p => p.id == q) := by
  induction l with
  | nil => rfl
  | cons a t ih =>
    by_cases ha : a.id = q
    · have hb : (a.id == q) = true := by simp [ha]
      have hk : (a.id != pid) = true := by simp [ha, h]
      simp [List.filter_cons, hk, List.find?_cons, hb, -List.find?_map,
        -beq_iff_eq]
    · have hb : (a.id == q) = false := by simp [ha]
      by_cases hp : a.id = pid
      · have hk : (a.id != pid) = false := by simp [hp]
        simp [List.filter_cons, hk, List.find?_cons, hb, ih, -List.find?_map,
          -beq_iff_eq]
      · have hk : (a.id != pid) = true := by simp [hp]
        simp [List.filter_cons, hk, List.find?_cons, hb, ih, -List.find?_map,
          -beq_iff_eq]

/-- Rewriting one order's user in the order table never changes the
creation timestamp any lookup observes. -/
theorem find_created_update_user (l : List Order) (oid uid q : Nat) :
    ((l.map (fun o => if o.id == oid then { o with user := uid } else o)).find?
        (fun o => o.id == q)).map Order.created
      = (l.find? (fun o => o.id == q)).map Order.created := by
  induction l with
  | nil => rfl
  | cons a t ih =>
    by_cases h : a.id = oid
    · have hb : (a.id == oid) = true := by simp [h]
      by_cases hq : a.id = q
      · have hbq : (a.id == q) = true := by simp [hq]
        simp [List.find?_cons, hb, hbq, -List.find?_map, -beq_iff_eq]
      · have hbq : (a.id == q) = false := by simp [hq]
        simp [List.find?_cons, hb, hbq, ih, -List.find?_map, -beq_iff_eq]
    · have hb : (a.id == oid) = false := by simp [h]
      by_cases hq : a.id = q
      · have hbq : (a.id == q) = true := by simp [hq]
        simp [List.find?_cons, hb, hbq, -List.find?_map, -beq_iff_eq]
      · have hbq : (a.id == q) = false := by simp [hq]
        simp [List.find?_cons, hb, hbq, ih, -List.find?_map, -beq_iff_eq]

/-- Appending a fresh row makes it the one a previously failing lookup
finds. -/
theorem find_append_fresh (l : List Order) (x : Order) (p : Order → Bool)
    (h : l.find? p = none) (hx : p x = true) :
    (l ++ [x]).find? p = some x := by
  simp [List.find?_append, h, List.find?_cons, hx]

/-- Editing a product's price rewrites exactly the looked-up row. -/
theorem findProduct_updateProductPrice (db : DB) (pid : Nat) (c : Int) :
    (db.updateProductPrice pid c).findProduct pid
      = (db.findProduct pid).map (fun p => { p with price := c }) :=
  find_price_update db.products pid c

/-- Deleting one product leaves lookups of every other product alone. -/
theorem findProduct_deleteProduct (db : DB) (pid q : Nat) (h : q ≠ pid) :
    (db.deleteProduct pid).findProduct q = db.findProduct q :=
  find_filter_ne db.products pid q h

/-- A line item whose product survives a product deletion keeps its
subtotal. -/
theorem total_amount_deleteProduct (db : DB) (pid : Nat) (i : OrderItem)
    (h : i.product ≠ pid) :
    i.total_amount (db.deleteProduct pid) = i.total_amount db := by
  unfold OrderItem.total_amount
  rw [findProduct_deleteProduct db pid i.product h]

/-- Deleting a product filters an order's line-item set by the product
reference. -/
theorem orderitem_set_deleteProduct (db : DB) (pid : Nat) (o : Order) :
    (db.deleteProduct pid).orderitem_set o
      = (db.orderitem_set o).filter (fun i => i.product != pid) := by
  unfold DB.orderitem_set DB.deleteProduct
  exact filter_comm_bool _ _ _

/-- Changing an order's user never changes any order's creation
timestamp. -/
theorem created_updateOrderUser (db : DB) (oid uid q : Nat) :
    ((db.updateOrderUser oid uid).findOrder q).map Order.created
      = (db.findOrder q).map Order.created :=
  find_created_update_user db.orders oid uid q

/-! Claim theorems. -/

/-- C1: for every order, `Order.total_amount` is the sum of
`OrderItem.total_amount` over exactly the order items whose `order`
foreign key is that order; in the concrete scenario with counts 2 and 5
on products priced 100 and 20 the total is 300. -/
theorem order_total_is_sum_of_items :
    (∀ (db : DB) (o : Order),
        o.total_amount db
          = sumAmounts ((db.orderItems.filter (fun i => i.order == o.id)).map
              (fun i => i.total_amount db)))
    ∧ (dbTwoItems.orders.head?.map (fun o => o.total_amount dbTwoItems)
        = some (some 300)) := by
  constructor
  · intro db o
    rfl
  · decide

/-- C2: for every order item whose `product` foreign key resolves to a
row `p`, `OrderItem.total_amount` is `p.price * count`. -/
theorem orderitem_total_is_price_times_count (db : DB) (i : OrderItem)
    (p : Product) (h : db.findProduct i.product = some p) :
    i.total_amount db = some (p.price * (i.count : Int)) := by
  simp [OrderItem.total_amount, h]

/-- C2 witness: in `dbTwoItems`, the item of count 5 on the product
priced 20 has subtotal 100. -/
theorem orderitem_total_witness :
    OrderItem.total_amount dbTwoItems ⟨2, 1, 2, 5⟩ = some 100 :=
  (orderitem_total_is_price_times_count dbTwoItems ⟨2, 1, 2, 5⟩
      ⟨2, "B", 20, "b.png"⟩ (by decide)).trans (by decide)

/-- C3: a request to the order detail route by an actor whose permission
set lacks `products.view_order` produces the authorization failure, for
every database state and every order id; the `forbidden` response
carries no order field at all. -/
theorem detail_requires_view_order_permission (db : DB) (perms : List String)
    (pk : Nat) (h : viewOrderPermission ∉ perms) :
    orderDetailView db perms pk = DetailResponse.forbidden := by
  simp [orderDetailView, h]

/-- C3 witness: with an empty permission set the route is rejected on
the populated scenario state. -/
theorem detail_permission_witness :
    orderDetailView dbTwoItems [] 1 = DetailResponse.forbidden :=
  detail_requires_view_order_permission dbTwoItems [] 1 (by decide)

/-- C10: an order with no associated order items has total 0 (Python's
`sum` of an empty list). -/
theorem empty_order_total_is_zero (db : DB) (o : Order)
    (h : db.orderitem_set o = []) :
    o.total_amount db = some 0 := by
  simp [Order.total_amount, h, sumAmounts]

/-- C10 witness: the empty order of `dbBase` has total 0. -/
theorem empty_order_total_witness :
    Order.total_amount dbBase ⟨1, 7, 5⟩ = some 0 :=
  empty_order_total_is_zero dbBase ⟨1, 7, 5⟩ (by decide)

/-- C4: `total_amount` is recomputed on every read from the current
product price.  For an order with a single line item whose product
resolves to `p`, the total reads `p.price * count` before a price edit
and `c * count` right after the price is edited to `c`. -/
theorem price_update_recomputes_total (db : DB) (o : Order) (i : OrderItem)
    (p : Product) (c : Int)
    (hset : db.orderitem_set o = [i])
    (hp : db.findProduct i.product = some p) :
    o.total_amount db = some (p.price * (i.count : Int))
    ∧ o.total_amount (db.updateProductPrice i.product c)
        = some (c * (i.count : Int)) := by
  have hset2 : (db.updateProductPrice i.product c).orderitem_set o = [i] := hset
  have hp2 : (db.updateProductPrice i.product c).findProduct i.product
      = some { p with price := c } := by
    rw [findProduct_updateProductPrice, hp]
    rfl
  constructor
  · unfold Order.total_amount
    rw [hset]
    simp [OrderItem.total_amount, hp, sumAmounts]
  · unfold Order.total_amount
    rw [hset2]
    simp [OrderItem.total_amount, hp2, sumAmounts]

/-- C4 witness: the widget order totals 1500 at price 500 and 1200 on
the next read after the price is edited to 400. -/
theorem price_update_witness :
    Order.total_amount dbWidget ⟨1, 7, 0⟩ = some 1500
    ∧ Order.total_amount (dbWidget.updateProductPrice 1 400) ⟨1, 7, 0⟩
        = some 1200 := by
  have h := price_update_recomputes_total dbWidget ⟨1, 7, 0⟩ ⟨1, 1, 1, 3⟩
    ⟨1, "Widget", 500, "w.png"⟩ 400 (by decide) (by decide)
  exact ⟨h.1.trans (by decide), h.2.trans (by decide)⟩

/-- C5: deleting a product removes exactly the order items referencing
it, keeps every order, and makes every order's total the sum over its
remaining line items only (each still priced from the unchanged rows of
the other products). -/
theorem delete_product_cascade (db : DB) (pid : Nat) (o : Order) :
    (db.deleteProduct pid).orders = db.orders
    ∧ (∀ i : OrderItem, i ∈ (db.deleteProduct pid).orderItems
        ↔ i ∈ db.orderItems ∧ i.product ≠ pid)
    ∧ o.total_amount (db.deleteProduct pid)
        = sumAmounts (((db.orderitem_set o).filter
            (fun i => i.product != pid)).map (fun i => i.total_amount db)) := by
  refine ⟨rfl, ?_, ?_⟩
  · intro i
    show i ∈ db.orderItems.filter (fun i => i.product != pid) ↔ _
    simp [List.mem_filter]
  · unfold Order.total_amount
    rw [orderitem_set_deleteProduct]
    congr 1
    apply List.map_congr_left
    intro i hi
    have hne : i.product ≠ pid := by
      have := (List.mem_filter.mp hi).2
      simpa using this
    exact total_amount_deleteProduct db pid i hne

/-- C6: deleting an order removes exactly its own order items; the
order table loses exactly that order and the product table is
unchanged. -/
theorem delete_order_cascade (db : DB) (oid : Nat) :
    (∀ i : OrderItem, i ∈ (db.deleteOrder oid).orderItems
        ↔ i ∈ db.orderItems ∧ i.order ≠ oid)
    ∧ (∀ o : Order, o ∈ (db.deleteOrder oid).orders
        ↔ o ∈ db.orders ∧ o.id ≠ oid)
    ∧ (db.deleteOrder oid).products = db.products := by
  refine ⟨?_, ?_, rfl⟩
  · intro i
    show i ∈ db.orderItems.filter (fun i => i.order != oid) ↔ _
    simp [List.mem_filter]
  · intro o
    show o ∈ db.orders.filter (fun o => o.id != oid) ↔ _
    simp [List.mem_filter]

/-- C7: deleting a user removes exactly the orders owned by that user,
and transitively exactly the order items whose order is one of those;
products are unchanged. -/
theorem delete_user_cascade (db : DB) (uid : Nat) :
    (∀ o : Order, o ∈ (db.deleteUser uid).orders
        ↔ o ∈ db.orders ∧ o.user ≠ uid)
    ∧ (∀ i : OrderItem, i ∈ (db.deleteUser uid).orderItems
        ↔ i ∈ db.orderItems
          ∧ ¬ ∃ o, o ∈ db.orders ∧ o.id = i.order ∧ o.user = uid)
    ∧ (db.deleteUser uid).products = db.products := by
  refine ⟨?_, ?_, rfl⟩
  · intro o
    show o ∈ db.orders.filter (fun o => o.user != uid) ↔ _
    simp [List.mem_filter]
  · intro i
    show i ∈ db.orderItems.filter _ ↔ _
    simp [List.mem_filter, List.any_eq_true]

/-- C8 counterexample: write-time validation accepts an order item with
`count = 0` (Django's `PositiveIntegerField` permits zero), so a stored
order item with count zero exists afterwards. -/
theorem count_zero_accepted :
    dbBase.createOrderItem 2 1 1 0 = some dbBaseZero
    ∧ ∃ i ∈ dbBaseZero.orderItems, i.count = 0 := by
  constructor
  · decide
  · exact ⟨⟨2, 1, 1, 0⟩, by decide, rfl⟩

/-- C8 amended: `count` validation enforces only the field-type bounds
0 ≤ count ≤ 2147483647; any count inside them, zero included, is
accepted and stored, so only non-negativity (not strict positivity) of
`count` holds for stored order items. -/
theorem count_validation_bounds_only (db : DB) (iid oid pid cnt : Nat)
    (ho : (db.findOrder oid).isSome = true)
    (hp : (db.findProduct pid).isSome = true)
    (hc : cnt ≤ positiveIntegerFieldMax) :
    db.createOrderItem iid oid pid cnt
      = some { db with orderItems := db.orderItems ++ [⟨iid, oid, pid, cnt⟩] } := by
  unfold DB.createOrderItem
  rw [if_pos ⟨ho, hp, hc⟩]

/-- C8 amended witness: on `dbBase`, an order item with count 0 passes
validation and is stored. -/
theorem count_validation_witness :
    dbBase.createOrderItem 2 1 1 0 = some dbBaseZero := by
  have h := count_validation_bounds_only dbBase 2 1 1 0 (by decide) (by decide)
    (by decide)
  exact h.trans (by decide)

/-- C9: `created` is assigned from the save-time clock exactly once at
creation, and neither editing the order's user, nor editing a line
item's count, nor adding a line item changes the timestamp any later
read observes. -/
theorem created_set_once_and_immutable (db : DB) (oid uid now : Nat)
    (db2 : DB) (hfresh : db.findOrder oid = none)
    (hc : db.createOrder oid uid now = some db2) :
    ((db2.findOrder oid).map Order.created = some now)
    ∧ (∀ uid2, ((db2.updateOrderUser oid uid2).findOrder oid).map
        Order.created = some now)
    ∧ (∀ iid cnt, ((db2.updateOrderItemCount iid cnt).findOrder oid).map
        Order.created = some now)
    ∧ (∀ iid pid cnt db3, db2.createOrderItem iid oid pid cnt = some db3 →
        (db3.findOrder oid).map Order.created = some now) := by
  unfold DB.createOrder at hc
  split at hc
  case isFalse => exact absurd hc (by simp)
  case isTrue =>
    have hdb2 : db2 = { db with orders := db.orders ++ [⟨oid, uid, now⟩] } :=
      (Option.some_inj.mp hc).symm
    subst hdb2
    have h1 : (DB.findOrder
        { db with orders := db.orders ++ [⟨oid, uid, now⟩] } oid).map
          Order.created = some now := by
      unfold DB.findOrder at hfresh ⊢
      rw [find_append_fresh db.orders ⟨oid, uid, now⟩ _ hfresh (by simp)]
      rfl
    refine ⟨h1, ?_, ?_, ?_⟩
    · intro uid2
      rw [created_updateOrderUser]
      exact h1
    · intro iid cnt
      exact h1
    · intro iid pid cnt db3 h3
      unfold DB.createOrderItem at h3
      split at h3
      case isFalse => exact absurd h3 (by simp)
      case isTrue =>
        have : db3 = { db with
            orders := db.orders ++ [⟨oid, uid, now⟩],
            orderItems := db.orderItems ++ [⟨iid, oid, pid, cnt⟩] } :=
          (Option.some_inj.mp h3).symm
        subst this
        exact h1

/-- C9 witness: creating order 2 at time 9 in `dbBase` stores timestamp
9, and an edit of the order's user leaves the stored timestamp at 9. -/
theorem created_immutable_witness :
    (dbBaseTwoOrders.findOrder 2).map Order.created = some 9
    ∧ ((dbBaseTwoOrders.updateOrderUser 2 8).findOrder 2).map Order.created
        = some 9 := by
  have h := created_set_once_and_immutable dbBase 2 7 9 dbBaseTwoOrders
    (by decide) (by decide)
  exact ⟨h.1, h.2.1 8⟩

end DjangoAdminExample
